import Mathlib

/-
  Verification of the chat synchronization core of the ride-support
  ChatScreen component.

  The embedding below translates the event-handling logic of
  src/src/screens/ride/ChatScreen.tsx into Lean: the React state cluster
  (messages, newMessage, isDriverTyping, isLoading, and the typing-stop
  timer ref) becomes an explicit record, and every socket event handler
  and UI callback becomes a pure state-transition function that also
  reports the outbound commands it fires (notification dispatch,
  mark-read, send-message, typing-start, typing-stop).
-/

/-- Sender role of a chat message, mirroring the source union
"user | driver".  For the local participant of this screen the local
role is user and the remote role is driver. -/
inductive SenderType where
  | user
  | driver
deriving DecidableEq, Repr

/-- The ChatMessage record of the source.  The timestamp is the
ISO-8601 creation-time string; the source only stores and displays it,
and ISO strings compare chronologically under the lexicographic string
order used in the ordering claims. -/
structure ChatMessage where
  id : String
  rideId : String
  senderId : String
  senderType : SenderType
  message : String
  timestamp : String
  isRead : Bool
deriving DecidableEq, Repr

/-- The React state cluster of the ChatScreen component: the message
log, the controlled input text, the remote typing flag, the
history-loading flag, and whether the typing-stop debounce timer is
currently scheduled (the typingTimeoutRef holding a live timer). -/
structure ScreenState where
  messages : List ChatMessage
  newMessage : String
  isDriverTyping : Bool
  isLoading : Bool
  typingTimerPending : Bool
deriving DecidableEq, Repr

/-- Initial component state: useState gives an empty log, empty input,
no remote typing, isLoading true, and a null timer ref. -/
def chatScreenInit : ScreenState :=
  { messages := []
  , newMessage := ""
  , isDriverTyping := false
  , isLoading := true
  , typingTimerPending := false }

/-- The history-load timeout duration in milliseconds (source: 10000). -/
def historyTimeoutMs : Nat := 10000

/-- The typing-stop debounce delay in milliseconds (source: 1000). -/
def typingStopDelayMs : Nat := 1000

/-- Result of the inbound message-push handler: the new screen state
plus whether the external notification dispatch and the outbound
mark-read command were invoked. -/
structure MessageResult where
  state : ScreenState
  notificationSent : Bool
  markReadSent : Bool
deriving DecidableEq, Repr

/-- The onChatMessage handler (source lines 159-194): always appends
the incoming message to the log, then, when the sender is the driver,
fires the notification dispatch (with the message body, classification
text, priority high) and issues the outbound mark-read command with
readerId the local user id and readerType user.  Messages from the
local role trigger neither. -/
def onChatMessageHandler (s : ScreenState) (m : ChatMessage) : MessageResult :=
  let s2 := { s with messages := s.messages ++ [m] }
  if m.senderType = SenderType.driver then
    { state := s2, notificationSent := true, markReadSent := true }
  else
    { state := s2, notificationSent := false, markReadSent := false }

/-- The onChatHistory handler (source lines 196-206).  The payload is
modelled as Option (Option (List ChatMessage)): the outer layer is a
null or missing data object, the inner layer a missing messages field.
When data and data.messages are present (a present empty array is
truthy in the source language, so it takes the first branch) the log is
set to the snapshot list; otherwise it is set to the empty list.  In
every case isLoading is cleared. -/
def onChatHistoryHandler (s : ScreenState)
    (data : Option (Option (List ChatMessage))) : ScreenState :=
  match data with
  | some (some ms) => { s with messages := ms, isLoading := false }
  | _ => { s with messages := [], isLoading := false }

/-- Payload of the inbound read-receipt event; the source handler
ignores every field of it. -/
structure ReadReceiptData where
  rideId : String
  readerType : SenderType
deriving DecidableEq, Repr

/-- The per-message update applied by the onMessagesRead handler:
messages sent by the local user role become read; others keep their
flag. -/
def applyReadReceipt (msg : ChatMessage) : ChatMessage :=
  { msg with isRead := if msg.senderType = SenderType.user then true else msg.isRead }

/-- The onMessagesRead handler (source lines 215-222): maps the update
over the whole log; the event payload is not inspected. -/
def onMessagesReadHandler (s : ScreenState) (_data : ReadReceiptData) : ScreenState :=
  { s with messages := s.messages.map applyReadReceipt }

/-- The onTypingIndicator handler (source lines 208-213): updates the
remote typing flag only when the event reports the driver role. -/
def onTypingIndicatorHandler (s : ScreenState) (senderType : SenderType)
    (isTyping : Bool) : ScreenState :=
  if senderType = SenderType.driver then { s with isDriverTyping := isTyping } else s

/-- The callback of the one-shot history-load timeout scheduled in
loadChatHistory (source lines 240-245): if isLoading is still set,
clear it.  (The source closure captures the isLoading value from the
render in which loadChatHistory ran, which is true at mount; under
either the captured or the current reading the resulting state is the
same, since clearing an already-false flag changes nothing.) -/
def historyLoadTimerFire (s : ScreenState) : ScreenState :=
  if s.isLoading then { s with isLoading := false } else s

/-- The inbound events and timer callbacks that can touch the screen
state after setup. -/
inductive ChatEvent where
  | messagePush (m : ChatMessage)
  | historySnapshot (data : Option (Option (List ChatMessage)))
  | typingPush (senderType : SenderType) (isTyping : Bool)
  | readReceipt (d : ReadReceiptData)
  | historyTimerFire
deriving DecidableEq, Repr

/-- Whether an event is a history snapshot. -/
def ChatEvent.isHistory : ChatEvent → Bool
  | .historySnapshot _ => true
  | _ => false

/-- Whether an event can clear the isLoading flag (a history snapshot
or the history-load timeout firing). -/
def ChatEvent.clearsLoading : ChatEvent → Bool
  | .historySnapshot _ => true
  | .historyTimerFire => true
  | _ => false

/-- One handler invocation: dispatches the event to the handler the
component registered for it. -/
def step (s : ScreenState) (e : ChatEvent) : ScreenState :=
  match e with
  | .messagePush m => (onChatMessageHandler s m).state
  | .historySnapshot data => onChatHistoryHandler s data
  | .typingPush st t => onTypingIndicatorHandler s st t
  | .readReceipt d => onMessagesReadHandler s d
  | .historyTimerFire => historyLoadTimerFire s

/-- Runs a sequence of deliveries in order; the scheduling model is
single-threaded, so each handler runs to completion before the next. -/
def runEvents (s : ScreenState) (es : List ChatEvent) : ScreenState :=
  es.foldl step s

/-- Whitespace trim used by handleSendMessage.  The source calls the
built-in string trim, which removes leading and trailing whitespace;
this structurally recursive definition computes the same result (the
library trim in this Lean version is defined through well-founded
substring recursion that the kernel cannot evaluate). -/
def trimString (s : String) : String :=
  String.mk (((s.data.dropWhile Char.isWhitespace).reverse.dropWhile
    Char.isWhitespace).reverse)

/-- Strict lexicographic order on the character lists of two strings;
on ISO-8601 timestamp strings of equal layout this is the
chronological order used by the display-ordering claim. -/
def charListLt : List Char → List Char → Bool
  | [], [] => false
  | [], _ :: _ => true
  | _ :: _, [] => false
  | a :: as, b :: bs => if a < b then true else if b < a then false else charListLt as bs

/-- See charListLt. -/
def timestampLt (a b : String) : Bool := charListLt a.data b.data

/-- Outbound send-message command payload, mirroring the messageData
object built in handleSendMessage. -/
structure OutboundMessage where
  rideId : String
  senderId : String
  senderType : SenderType
  message : String
deriving DecidableEq, Repr

/-- Result of handleSendMessage: the new screen state, the outbound
send-message command (if issued), and whether the outbound typing-stop
command was sent. -/
structure SendResult where
  state : ScreenState
  sendIssued : Option OutboundMessage
  typingStopSent : Bool
deriving DecidableEq, Repr

/-- The handleSendMessage callback (source lines 252-276).  When the
trimmed input and both ids are non-empty it issues the outbound
send-message command with the trimmed body, clears the input, sends
the outbound typing-stop command unconditionally, and clears any
pending typing-stop timer.  Otherwise it does nothing.  It never
touches the message log. -/
def handleSendMessage (userId rideId : String) (s : ScreenState) : SendResult :=
  if trimString s.newMessage ≠ "" ∧ userId ≠ "" ∧ rideId ≠ "" then
    { state := { s with newMessage := "", typingTimerPending := false }
    , sendIssued := some
        { rideId := rideId
        , senderId := userId
        , senderType := SenderType.user
        , message := trimString s.newMessage }
    , typingStopSent := true }
  else
    { state := s, sendIssued := none, typingStopSent := false }

/-- Result of a keystroke: the new screen state plus whether the
outbound typing-start command was sent. -/
structure TypingResult where
  state : ScreenState
  typingStartSent : Bool
deriving DecidableEq, Repr

/-- The handleTyping callback (source lines 283-310): stores the new
text, sends typing-start exactly when the new text has length one and
both ids are non-empty, then clears any existing typing-stop timer and
schedules a fresh one (so the timer is always pending afterwards). -/
def handleTyping (userId rideId : String) (s : ScreenState) (text : String) :
    TypingResult :=
  { state := { s with newMessage := text, typingTimerPending := true }
  , typingStartSent := decide (text.length = 1 ∧ userId ≠ "" ∧ rideId ≠ "") }

/-- The typing-stop debounce timer callback (source lines 301-309):
after one second without a further keystroke it fires, emitting the
outbound typing-stop command when both ids are non-empty.  Returns the
state (timer no longer pending) and whether typing-stop was sent. -/
def typingStopTimerFire (userId rideId : String) (s : ScreenState) :
    ScreenState × Bool :=
  ({ s with typingTimerPending := false }, decide (userId ≠ "" ∧ rideId ≠ ""))

/-- Folds a burst of keystrokes through handleTyping, counting how many
outbound typing-start commands were emitted. -/
def typingTrace (userId rideId : String) : ScreenState → List String → ScreenState × Nat
  | s, [] => (s, 0)
  | s, t :: ts =>
    let r1 := handleTyping userId rideId s t
    let rest := typingTrace userId rideId r1.state ts
    (rest.1, (if r1.typingStartSent then 1 else 0) + rest.2)

/-- The loadChatHistory function (source lines 230-250): with both ids
present it issues the outbound request-history command and schedules
the one-shot ten-second timeout; otherwise it clears isLoading at
once. -/
structure LoadResult where
  state : ScreenState
  requestIssued : Bool
  timerScheduled : Bool
deriving DecidableEq, Repr

/-- See LoadResult. -/
def loadChatHistory (userId rideId : String) (s : ScreenState) : LoadResult :=
  if userId ≠ "" ∧ rideId ≠ "" then
    { state := s, requestIssued := true, timerScheduled := true }
  else
    { state := { s with isLoading := false }, requestIssued := false
    , timerScheduled := false }

/-- A driver message used as a concrete admission input. -/
def dupMessage : ChatMessage :=
  { id := "m1", rideId := "ride1", senderId := "driver9"
  , senderType := SenderType.driver, message := "hello there"
  , timestamp := "2025-01-01T10:00:00Z", isRead := false }

/-- A state whose log already holds dupMessage. -/
def dupState : ScreenState :=
  { chatScreenInit with messages := [dupMessage], isLoading := false }

/-- A local-user message already marked read. -/
def readMessage : ChatMessage :=
  { id := "m2", rideId := "ride1", senderId := "user1"
  , senderType := SenderType.user, message := "are you close"
  , timestamp := "2025-01-01T10:00:01Z", isRead := true }

/-- The same message as carried by a history snapshot, with its read
flag still false on the server side. -/
def unreadCopy : ChatMessage := { readMessage with isRead := false }

/-- A state whose log holds readMessage with read already true. -/
def readState : ScreenState :=
  { chatScreenInit with messages := [readMessage], isLoading := false }

/-- A live-push message with the earlier creation timestamp. -/
def earlyMessage : ChatMessage :=
  { id := "m3", rideId := "ride1", senderId := "driver9"
  , senderType := SenderType.driver, message := "first"
  , timestamp := "2025-01-01T10:00:05Z", isRead := false }

/-- A live-push message with the later creation timestamp. -/
def lateMessage : ChatMessage :=
  { id := "m4", rideId := "ride1", senderId := "driver9"
  , senderType := SenderType.driver, message := "second"
  , timestamp := "2025-01-01T10:00:10Z", isRead := false }

/-- A message delivered by a history snapshot. -/
def histMessage : ChatMessage :=
  { id := "m5", rideId := "ride1", senderId := "driver9"
  , senderType := SenderType.driver, message := "from history"
  , timestamp := "2025-01-01T09:59:00Z", isRead := false }

/-- A message delivered by a live push. -/
def pushMessage : ChatMessage :=
  { id := "m6", rideId := "ride1", senderId := "driver9"
  , senderType := SenderType.driver, message := "from live push"
  , timestamp := "2025-01-01T10:01:00Z", isRead := false }

/-- The state after one keystroke that typed the full word hello. -/
def typingBurstState : ScreenState :=
  (handleTyping "user1" "ride1" chatScreenInit "hello").state

/-- The state after the typing-stop debounce timer has fired: the
typing machine is idle again while the input still holds hello. -/
def idleAfterFire : ScreenState :=
  (typingStopTimerFire "user1" "ride1" typingBurstState).1

/-- A state ready to send the two-letter body hi. -/
def composeState : ScreenState :=
  { chatScreenInit with newMessage := "hi", isLoading := false }

/-- Helper: the message-push handler changes the state only by
appending the incoming message, in both sender-role branches. -/
theorem onChatMessageHandler_state (s : ScreenState) (m : ChatMessage) :
    (onChatMessageHandler s m).state = { s with messages := s.messages ++ [m] } := by
  unfold onChatMessageHandler
  by_cases h : m.senderType = SenderType.driver <;> simp [h]

/-- Helper: a message-push step appends the message to the log. -/
theorem step_messagePush (s : ScreenState) (m : ChatMessage) :
    step s (ChatEvent.messagePush m) = { s with messages := s.messages ++ [m] } := by
  simp [step, onChatMessageHandler_state]

/-- Helper: the typing-indicator handler never touches the log. -/
theorem onTypingIndicatorHandler_messages (s : ScreenState) (st : SenderType)
    (t : Bool) : (onTypingIndicatorHandler s st t).messages = s.messages := by
  unfold onTypingIndicatorHandler
  by_cases h : st = SenderType.driver <;> simp [h]

/-- Helper: the history-load timeout callback never touches the log. -/
theorem historyLoadTimerFire_messages (s : ScreenState) :
    (historyLoadTimerFire s).messages = s.messages := by
  unfold historyLoadTimerFire
  by_cases h : s.isLoading <;> simp [h]

/-- Helper: the read-receipt update keeps the message id. -/
theorem applyReadReceipt_id (m : ChatMessage) :
    (applyReadReceipt m).id = m.id := rfl

/-- Helper: the read-receipt update never clears a read flag. -/
theorem applyReadReceipt_isRead_mono (m : ChatMessage) (h : m.isRead = true) :
    (applyReadReceipt m).isRead = true := by
  unfold applyReadReceipt
  by_cases h2 : m.senderType = SenderType.user <;> simp [h2, h]

/-- Claim C1 counterexample: admitting a message whose id already
appears in the log does not leave the log unchanged — the handler
appends a second entry with the same id, so after the duplicate
admission two entries share an id and the contents differ from the
single-admission log. -/
theorem admit_duplicate_cex :
    ((onChatMessageHandler dupState dupMessage).state.messages = [dupMessage, dupMessage])
    ∧ ((onChatMessageHandler dupState dupMessage).state.messages ≠ [dupMessage])
    ∧ (((onChatMessageHandler dupState dupMessage).state.messages.filter
        (fun x => x.id == dupMessage.id)).length = 2) := by
  decide

/-- Claim C1 (amended): message admission is an unconditional append —
admitting any message adds it to the end of the log even when its id
already appears, so duplicate ids can coexist, and admitting a message
twice yields the log with two appended copies, which differs from the
log after admitting it once. -/
theorem admit_appends (s : ScreenState) (m : ChatMessage) :
    ((onChatMessageHandler s m).state.messages = s.messages ++ [m])
    ∧ ((onChatMessageHandler (onChatMessageHandler s m).state m).state.messages
        = s.messages ++ [m, m])
    ∧ ((onChatMessageHandler (onChatMessageHandler s m).state m).state.messages
        ≠ (onChatMessageHandler s m).state.messages) := by
  refine ⟨?_, ?_, ?_⟩
  · rw [onChatMessageHandler_state]
  · rw [onChatMessageHandler_state, onChatMessageHandler_state]
    simp
  · rw [onChatMessageHandler_state, onChatMessageHandler_state]
    intro h
    have hlen := congrArg List.length h
    simp at hlen

/-- Claim C5: for every inbound message push, the notification
dispatch and the outbound mark-read command are issued exactly when the
sender role is driver (the remote role for this screen); messages with
the local user role trigger neither; and the message is appended to
the log in every case. -/
theorem notification_trigger (s : ScreenState) (m : ChatMessage) :
    ((onChatMessageHandler s m).notificationSent
        = decide (m.senderType = SenderType.driver))
    ∧ ((onChatMessageHandler s m).markReadSent
        = decide (m.senderType = SenderType.driver))
    ∧ ((onChatMessageHandler s m).state.messages = s.messages ++ [m]) := by
  unfold onChatMessageHandler
  by_cases h : m.senderType = SenderType.driver <;> simp [h]

/-- Claim C9: every history snapshot replaces the whole log with
exactly the snapshot list (or the empty list when the data object or
its messages field is absent), independently of what the log held
before, and always clears the loading flag; the input text and remote
typing flag are untouched. -/
theorem history_snapshot_replaces (s : ScreenState)
    (data : Option (Option (List ChatMessage))) :
    ((onChatHistoryHandler s data).messages = (data.getD none).getD [])
    ∧ ((onChatHistoryHandler s data).isLoading = false)
    ∧ ((onChatHistoryHandler s data).messages
        = (onChatHistoryHandler { s with messages := [] } data).messages)
    ∧ ((onChatHistoryHandler s data).newMessage = s.newMessage)
    ∧ ((onChatHistoryHandler s data).isDriverTyping = s.isDriverTyping) := by
  rcases data with _ | d
  · simp [onChatHistoryHandler]
  · rcases d with _ | ms <;> simp [onChatHistoryHandler]

/-- Helper: a block of consecutive message pushes appends the pushed
messages in arrival order. -/
theorem runEvents_pushes (ms : List ChatMessage) :
    ∀ s : ScreenState,
      (runEvents s (ms.map ChatEvent.messagePush)).messages = s.messages ++ ms := by
  induction ms with
  | nil => intro s; simp [runEvents]
  | cons m t ih =>
      intro s
      have h1 : runEvents s ((m :: t).map ChatEvent.messagePush)
          = runEvents (step s (ChatEvent.messagePush m)) (t.map ChatEvent.messagePush) := rfl
      rw [h1, ih, step_messagePush]
      simp

/-- Claim C3 counterexample: two live pushes delivered newest-first
leave the log in decreasing timestamp order, and delivering a history
snapshot before a live push yields a different log than the opposite
interleaving of the same two deliveries, so the order is neither
sorted by creation timestamp nor independent of delivery order. -/
theorem display_order_cex :
    ((runEvents chatScreenInit
        [ChatEvent.messagePush lateMessage, ChatEvent.messagePush earlyMessage]).messages
      = [lateMessage, earlyMessage])
    ∧ (timestampLt earlyMessage.timestamp lateMessage.timestamp = true)
    ∧ ((runEvents chatScreenInit
          [ChatEvent.historySnapshot (some (some [histMessage])),
           ChatEvent.messagePush pushMessage]).messages
        ≠ (runEvents chatScreenInit
          [ChatEvent.messagePush pushMessage,
           ChatEvent.historySnapshot (some (some [histMessage]))]).messages) := by
  decide

/-- Claim C3 (amended): the iteration order of the log is delivery
order, not timestamp order — a history snapshot replaces the log with
the snapshot list in snapshot order, and every subsequent live push
appends in arrival order, so the resulting order depends on the
interleaving of deliveries. -/
theorem display_order_delivery (s : ScreenState) (hist ms : List ChatMessage) :
    (runEvents s
        (ChatEvent.historySnapshot (some (some hist)) :: ms.map ChatEvent.messagePush)).messages
      = hist ++ ms := by
  have h1 : runEvents s
        (ChatEvent.historySnapshot (some (some hist)) :: ms.map ChatEvent.messagePush)
      = runEvents (step s (ChatEvent.historySnapshot (some (some hist))))
        (ms.map ChatEvent.messagePush) := rfl
  rw [h1, runEvents_pushes]
  simp [step, onChatHistoryHandler]

/-- Helper: mapping the read-receipt update leaves the projection of
every field except the read flag unchanged, turns the read flag of
user-sent messages to true while driver-sent flags keep their value. -/
theorem map_applyReadReceipt_isRead (l : List ChatMessage) :
    (l.map applyReadReceipt).map ChatMessage.isRead
      = l.map (fun m => decide (m.senderType = SenderType.user) || m.isRead) := by
  induction l with
  | nil => rfl
  | cons a t ih =>
      simp only [List.map_cons, ih]
      congr 1
      unfold applyReadReceipt
      by_cases h : a.senderType = SenderType.user <;> simp [h]

/-- Helper: the read-receipt update is the identity on driver-sent
messages, so filtering the mapped log down to driver messages gives
back exactly the driver messages of the original log. -/
theorem filter_driver_applyReadReceipt (l : List ChatMessage) :
    (l.map applyReadReceipt).filter (fun m => decide (m.senderType = SenderType.driver))
      = l.filter (fun m => decide (m.senderType = SenderType.driver)) := by
  induction l with
  | nil => rfl
  | cons a t ih =>
      by_cases h : a.senderType = SenderType.driver
      · have hneq : ¬ a.senderType = SenderType.user := by
          rw [h]
          intro hc
          cases hc
        have ha : applyReadReceipt a = a := by
          unfold applyReadReceipt
          rw [if_neg hneq]
        simp [List.filter_cons, ha, h, ih]
      · have hst : (applyReadReceipt a).senderType = a.senderType := rfl
        simp [List.filter_cons, hst, h, ih]

/-- Claim C10: a read-receipt event preserves the length and order of
the log and every field of every message except the read flag;
user-sent messages get read set to true regardless of the payload
(the handler ignores the payload entirely), and driver-sent messages
are unchanged. -/
theorem read_receipt_frame (s : ScreenState) (d d2 : ReadReceiptData) :
    ((onMessagesReadHandler s d).messages.length = s.messages.length)
    ∧ ((onMessagesReadHandler s d).messages.map ChatMessage.id
        = s.messages.map ChatMessage.id)
    ∧ ((onMessagesReadHandler s d).messages.map ChatMessage.rideId
        = s.messages.map ChatMessage.rideId)
    ∧ ((onMessagesReadHandler s d).messages.map ChatMessage.senderId
        = s.messages.map ChatMessage.senderId)
    ∧ ((onMessagesReadHandler s d).messages.map ChatMessage.senderType
        = s.messages.map ChatMessage.senderType)
    ∧ ((onMessagesReadHandler s d).messages.map ChatMessage.message
        = s.messages.map ChatMessage.message)
    ∧ ((onMessagesReadHandler s d).messages.map ChatMessage.timestamp
        = s.messages.map ChatMessage.timestamp)
    ∧ ((onMessagesReadHandler s d).messages.map ChatMessage.isRead
        = s.messages.map (fun m => decide (m.senderType = SenderType.user) || m.isRead))
    ∧ ((onMessagesReadHandler s d).messages.filter
          (fun m => decide (m.senderType = SenderType.driver))
        = s.messages.filter (fun m => decide (m.senderType = SenderType.driver)))
    ∧ (onMessagesReadHandler s d = onMessagesReadHandler s d2) := by
  refine ⟨?_, ?_, ?_, ?_, ?_, ?_, ?_, ?_, ?_, rfl⟩
  · simp [onMessagesReadHandler]
  · show (s.messages.map applyReadReceipt).map ChatMessage.id = s.messages.map ChatMessage.id
    rw [List.map_map]
    rfl
  · show (s.messages.map applyReadReceipt).map ChatMessage.rideId
      = s.messages.map ChatMessage.rideId
    rw [List.map_map]
    rfl
  · show (s.messages.map applyReadReceipt).map ChatMessage.senderId
      = s.messages.map ChatMessage.senderId
    rw [List.map_map]
    rfl
  · show (s.messages.map applyReadReceipt).map ChatMessage.senderType
      = s.messages.map ChatMessage.senderType
    rw [List.map_map]
    rfl
  · show (s.messages.map applyReadReceipt).map ChatMessage.message
      = s.messages.map ChatMessage.message
    rw [List.map_map]
    rfl
  · show (s.messages.map applyReadReceipt).map ChatMessage.timestamp
      = s.messages.map ChatMessage.timestamp
    rw [List.map_map]
    rfl
  · exact map_applyReadReceipt_isRead s.messages
  · exact filter_driver_applyReadReceipt s.messages

/-- Claim C2 counterexample: the log holds message m2 with its read
flag already true; a history-snapshot delivery carrying an unread copy
of the same message id replaces the log with that copy, so a handler
invocation set the read flag of m2 from true back to false. -/
theorem read_reset_cex :
    (readMessage.isRead = true)
    ∧ (unreadCopy.id = readMessage.id)
    ∧ ((step readState
        (ChatEvent.historySnapshot (some (some [unreadCopy])))).messages = [unreadCopy])
    ∧ (unreadCopy.isRead = false) := by
  decide

/-- Claim C2 (amended): read monotonicity holds for every handler
except the history-snapshot handler — under a message push, a typing
event, a read receipt, or the history timeout, each entry already in
the log keeps its position, keeps its id, and a read flag that is true
stays true; a history snapshot instead replaces the whole log with the
snapshot copies, whose flags may be false. -/
theorem read_monotone_nonhistory (s : ScreenState) (e : ChatEvent)
    (he : e.isHistory = false) (i : Nat) (h : i < s.messages.length)
    (hr : (s.messages.get ⟨i, h⟩).isRead = true) :
    ∃ h2 : i < (step s e).messages.length,
      (((step s e).messages.get ⟨i, h2⟩).isRead = true
        ∧ ((step s e).messages.get ⟨i, h2⟩).id = (s.messages.get ⟨i, h⟩).id) := by
  cases e with
  | messagePush m =>
      have hm : (step s (ChatEvent.messagePush m)).messages = s.messages ++ [m] := by
        rw [step_messagePush]
      rw [hm]
      have h2 : i < (s.messages ++ [m]).length := by
        simp
        omega
      have hget : (s.messages ++ [m]).get ⟨i, h2⟩ = s.messages.get ⟨i, h⟩ := by
        simp only [List.get_eq_getElem]
        exact List.getElem_append_left h
      refine ⟨h2, ?_, ?_⟩
      · rw [hget]
        exact hr
      · rw [hget]
  | historySnapshot data => simp [ChatEvent.isHistory] at he
  | typingPush st t =>
      have hm : (step s (ChatEvent.typingPush st t)).messages = s.messages := by
        simp [step, onTypingIndicatorHandler_messages]
      rw [hm]
      exact ⟨h, hr, rfl⟩
  | readReceipt d =>
      have hm : (step s (ChatEvent.readReceipt d)).messages
          = s.messages.map applyReadReceipt := rfl
      rw [hm]
      have h2 : i < (s.messages.map applyReadReceipt).length := by
        simp
        omega
      have hget : (s.messages.map applyReadReceipt).get ⟨i, h2⟩
          = applyReadReceipt (s.messages.get ⟨i, h⟩) := by
        simp [List.get_eq_getElem, List.getElem_map]
      refine ⟨h2, ?_, ?_⟩
      · rw [hget]
        exact applyReadReceipt_isRead_mono _ hr
      · rw [hget, applyReadReceipt_id]
  | historyTimerFire =>
      have hm : (step s ChatEvent.historyTimerFire).messages = s.messages := by
        simp [step, historyLoadTimerFire_messages]
      rw [hm]
      exact ⟨h, hr, rfl⟩

/-- Witness for the amended claim C2 at a concrete input: a read
receipt arrives while the log holds the already-read message m2. -/
theorem read_monotone_witness :
    ∃ h2 : 0 < (step readState (ChatEvent.readReceipt
        { rideId := "ride1", readerType := SenderType.driver })).messages.length,
      (((step readState (ChatEvent.readReceipt
          { rideId := "ride1", readerType := SenderType.driver })).messages.get
            ⟨0, h2⟩).isRead = true
        ∧ ((step readState (ChatEvent.readReceipt
          { rideId := "ride1", readerType := SenderType.driver })).messages.get
            ⟨0, h2⟩).id = (readState.messages.get ⟨0, by decide⟩).id) :=
  read_monotone_nonhistory readState
    (ChatEvent.readReceipt { rideId := "ride1", readerType := SenderType.driver })
    (by decide) 0 (by decide) (by decide)

/-- Helper: events other than a history snapshot and the history
timeout leave the loading flag exactly as it was. -/
theorem step_clearsLoading_false (s : ScreenState) (e : ChatEvent)
    (h : e.clearsLoading = false) : (step s e).isLoading = s.isLoading := by
  cases e with
  | messagePush m => rw [step_messagePush]
  | historySnapshot d => simp [ChatEvent.clearsLoading] at h
  | typingPush st t =>
      show (onTypingIndicatorHandler s st t).isLoading = s.isLoading
      unfold onTypingIndicatorHandler
      split <;> rfl
  | readReceipt d => rfl
  | historyTimerFire => simp [ChatEvent.clearsLoading] at h

/-- Helper: a run of events none of which clears loading leaves the
loading flag as it was. -/
theorem runEvents_isLoading (es : List ChatEvent) :
    ∀ s : ScreenState, (∀ e ∈ es, e.clearsLoading = false) →
      (runEvents s es).isLoading = s.isLoading := by
  induction es with
  | nil => intro s _; rfl
  | cons e t ih =>
      intro s hall
      have h1 : runEvents s (e :: t) = runEvents (step s e) t := rfl
      rw [h1, ih (step s e) (fun x hx => hall x (List.mem_cons_of_mem e hx)),
        step_clearsLoading_false s e (hall e (List.mem_cons_self e t))]

/-- Helper: once the loading flag is cleared, no event sets it back. -/
theorem step_isLoading_false (s : ScreenState) (e : ChatEvent)
    (h : s.isLoading = false) : (step s e).isLoading = false := by
  cases e with
  | messagePush m =>
      rw [step_messagePush]
      exact h
  | historySnapshot d =>
      rcases d with _ | d2
      · rfl
      · rcases d2 with _ | ms <;> rfl
  | typingPush st t =>
      show (onTypingIndicatorHandler s st t).isLoading = false
      unfold onTypingIndicatorHandler
      split <;> exact h
  | readReceipt d => exact h
  | historyTimerFire =>
      show (historyLoadTimerFire s).isLoading = false
      unfold historyLoadTimerFire
      rw [h]
      simp [h]

/-- Claim C4: while the loading flag is still pending (no snapshot or
timeout yet), the timeout firing clears it at that step and leaves the
log untouched; a timeout firing after loading was already cleared
changes nothing at all; a snapshot arriving after the timeout still
delivers its messages into the log with loading still cleared; and the
loading flag never returns to pending under any later event, so the
loading state is cleared exactly once.  (The timer itself is a single
one-shot timeout of historyTimeoutMs milliseconds scheduled by
loadChatHistory, so historyTimerFire occurs at most once per load.) -/
theorem history_timeout_fallback (s : ScreenState) (es : List ChatEvent)
    (hl : s.isLoading = true) (hes : ∀ e ∈ es, e.clearsLoading = false) :
    ((runEvents s es).isLoading = true
      ∧ (step (runEvents s es) ChatEvent.historyTimerFire).isLoading = false
      ∧ (step (runEvents s es) ChatEvent.historyTimerFire).messages
          = (runEvents s es).messages)
    ∧ (∀ t : ScreenState, t.isLoading = false → step t ChatEvent.historyTimerFire = t)
    ∧ (∀ (t : ScreenState) (ms : List ChatMessage),
        ((step t (ChatEvent.historySnapshot (some (some ms)))).messages = ms
          ∧ (step t (ChatEvent.historySnapshot (some (some ms)))).isLoading = false))
    ∧ (∀ (t : ScreenState) (e : ChatEvent), t.isLoading = false →
        (step t e).isLoading = false) := by
  have hpend : (runEvents s es).isLoading = true := by
    rw [runEvents_isLoading es s hes]
    exact hl
  refine ⟨⟨hpend, ?_, ?_⟩, ?_, ?_, ?_⟩
  · show (historyLoadTimerFire (runEvents s es)).isLoading = false
    unfold historyLoadTimerFire
    rw [hpend]
    simp
  · exact historyLoadTimerFire_messages _
  · intro t ht
    show historyLoadTimerFire t = t
    unfold historyLoadTimerFire
    rw [ht]
    simp
  · intro t ms
    exact ⟨rfl, rfl⟩
  · intro t e ht
    exact step_isLoading_false t e ht

/-- Witness for claim C4 at a concrete input: starting from the
initial state, a lone message push does not clear loading, and the
timeout firing afterwards does. -/
theorem history_timeout_fallback_witness :
    ((runEvents chatScreenInit [ChatEvent.messagePush dupMessage]).isLoading = true
      ∧ (step (runEvents chatScreenInit [ChatEvent.messagePush dupMessage])
          ChatEvent.historyTimerFire).isLoading = false) := by
  have h := history_timeout_fallback chatScreenInit [ChatEvent.messagePush dupMessage]
    (by decide) (by decide)
  exact ⟨h.1.1, h.1.2.1⟩

/-- Claim C6 counterexample: pasting the two-letter text hi into the
empty input (an empty-to-non-empty transition) emits no typing-start,
while the burst x, xy, x — three keystrokes during which the input
never becomes empty — emits two typing-starts; so typing-start is not
emitted exactly at empty-to-non-empty transitions, and a burst keeping
the input non-empty can emit more than one. -/
theorem typing_debounce_cex :
    ((handleTyping "user1" "ride1" chatScreenInit "hi").typingStartSent = false)
    ∧ ((typingTrace "user1" "ride1" chatScreenInit ["x", "xy", "x"]).2 = 2) := by
  decide

/-- Helper: across any keystroke burst, the number of typing-starts
emitted equals the number of keystrokes whose resulting text has
length exactly one. -/
theorem typingTrace_count (u r : String) (hu : u ≠ "") (hr : r ≠ "") :
    ∀ (texts : List String) (s : ScreenState),
      (typingTrace u r s texts).2
        = (texts.filter (fun x => decide (x.length = 1))).length := by
  intro texts
  induction texts with
  | nil => intro s; rfl
  | cons t ts ih =>
      intro s
      simp only [typingTrace]
      rw [ih]
      by_cases h : t.length = 1
      · simp [handleTyping, h, hu, hr, List.filter_cons]
        try omega
      · simp [handleTyping, h, hu, hr, List.filter_cons]
        try omega

/-- Claim C6 (amended): with both ids set, the typing-start command is
emitted exactly when the keystroke leaves text of length one (not at
empty-to-non-empty transitions), so a burst emits one typing-start per
length-one text; every keystroke re-arms the stop timer, and when the
one-second window elapses with no further input the pending timer
fires, emitting one typing-stop and leaving no timer pending. -/
theorem typing_start_policy (u r : String) (s : ScreenState) (t : String)
    (texts : List String) (hu : u ≠ "") (hr : r ≠ "") :
    ((handleTyping u r s t).typingStartSent = decide (t.length = 1))
    ∧ ((handleTyping u r s t).state.typingTimerPending = true)
    ∧ ((typingStopTimerFire u r (handleTyping u r s t).state).2 = true)
    ∧ ((typingStopTimerFire u r (handleTyping u r s t).state).1.typingTimerPending = false)
    ∧ ((typingTrace u r s texts).2
        = (texts.filter (fun x => decide (x.length = 1))).length) := by
  refine ⟨?_, rfl, ?_, rfl, typingTrace_count u r hu hr texts s⟩
  · simp [handleTyping, decide_eq_decide, hu, hr]
  · simp [typingStopTimerFire, hu, hr]

/-- Witness for the amended claim C6 at a concrete input. -/
theorem typing_start_policy_witness :
    ((handleTyping "user1" "ride1" chatScreenInit "a").typingStartSent
        = decide ("a".length = 1))
    ∧ ((typingTrace "user1" "ride1" chatScreenInit ["ab", "b"]).2
        = (["ab", "b"].filter (fun x => decide (x.length = 1))).length) := by
  have h := typing_start_policy "user1" "ride1" chatScreenInit "a" ["ab", "b"]
    (by decide) (by decide)
  exact ⟨h.1, h.2.2.2.2⟩

/-- Claim C7 counterexample: after one keystroke typed hello, the
debounce window elapses and the stop timer fires, emitting typing-stop
and returning the machine to idle; pressing send in that idle state
emits typing-stop again — so a send while already idle does emit a
typing-stop, and more than one typing-stop is emitted for a single
active-to-idle transition. -/
theorem send_stop_while_idle_cex :
    ((typingStopTimerFire "user1" "ride1" typingBurstState).2 = true)
    ∧ (idleAfterFire.typingTimerPending = false)
    ∧ ((handleSendMessage "user1" "ride1" idleAfterFire).typingStopSent = true) := by
  decide

/-- Claim C7 (amended): a valid send (non-whitespace body, both ids
set) always cancels any pending stop timer, clears the input, and
emits the typing-stop command together with the send command — whether
or not the typing machine was active, so a send while already idle
also emits a typing-stop. -/
theorem send_typing_transition (u r : String) (s : ScreenState)
    (hm : trimString s.newMessage ≠ "") (hu : u ≠ "") (hr : r ≠ "") :
    ((handleSendMessage u r s).typingStopSent = true)
    ∧ ((handleSendMessage u r s).state.typingTimerPending = false)
    ∧ ((handleSendMessage u r s).sendIssued
        = some { rideId := r, senderId := u, senderType := SenderType.user
               , message := trimString s.newMessage })
    ∧ ((handleSendMessage u r s).state.newMessage = "") := by
  unfold handleSendMessage
  rw [if_pos ⟨hm, hu, hr⟩]
  exact ⟨rfl, rfl, rfl, rfl⟩

/-- Witness for the amended claim C7 at a concrete input. -/
theorem send_typing_transition_witness :
    ((handleSendMessage "user1" "ride1" idleAfterFire).typingStopSent = true)
    ∧ ((handleSendMessage "user1" "ride1" idleAfterFire).state.typingTimerPending
        = false) := by
  have h := send_typing_transition "user1" "ride1" idleAfterFire
    (by decide) (by decide) (by decide)
  exact ⟨h.1, h.2.1⟩

/-- Claim C8 counterexample: sending the valid body hi issues the
outbound send-message command but leaves the message log empty — no
optimistic message with a locally generated id and read true is
inserted, contrary to the claim. -/
theorem send_no_optimistic_cex :
    ((handleSendMessage "user1" "ride1" composeState).sendIssued
        = some { rideId := "ride1", senderId := "user1"
               , senderType := SenderType.user, message := "hi" })
    ∧ ((handleSendMessage "user1" "ride1" composeState).state.messages = []) := by
  decide

/-- Claim C8 (amended): with both ids set, a body that trims to empty
makes the send a complete no-op (state unchanged, no outbound
command); a non-whitespace body issues the outbound send-message
command carrying the trimmed body and clears the input, but inserts no
optimistic message — the log is unchanged and the message appears only
when the server pushes it back. -/
theorem send_message_contract (u r : String) (s : ScreenState)
    (hu : u ≠ "") (hr : r ≠ "") :
    (trimString s.newMessage = "" →
      handleSendMessage u r s
        = { state := s, sendIssued := none, typingStopSent := false })
    ∧ (trimString s.newMessage ≠ "" →
      (((handleSendMessage u r s).sendIssued
          = some { rideId := r, senderId := u, senderType := SenderType.user
                 , message := trimString s.newMessage })
        ∧ ((handleSendMessage u r s).state.messages = s.messages)
        ∧ ((handleSendMessage u r s).state.newMessage = ""))) := by
  constructor
  · intro h
    unfold handleSendMessage
    rw [if_neg]
    intro hc
    exact hc.1 h
  · intro h
    unfold handleSendMessage
    rw [if_pos ⟨h, hu, hr⟩]
    exact ⟨rfl, rfl, rfl⟩

/-- Witness for the amended claim C8 at a concrete input: a
whitespace-only body is a complete no-op. -/
theorem send_message_contract_witness :
    handleSendMessage "user1" "ride1" { chatScreenInit with newMessage := "   " }
      = { state := { chatScreenInit with newMessage := "   " }
        , sendIssued := none, typingStopSent := false } := by
  have h := send_message_contract "user1" "ride1"
    { chatScreenInit with newMessage := "   " } (by decide) (by decide)
  exact h.1 (by decide)
